import Mathlib

/-!
Verification of the mcp-pokemon-server repository (src/poke_client.py and
src/server.py) against its natural-language specification.

The two Python source files are shallowly embedded below.  External
collaborators (the `requests` HTTP library, the FastMCP tool dispatcher, the
Starlette/uvicorn host) are modelled at their interface boundary: the remote
data provider is an oracle mapping an HTTP request to an outcome, and the tool
dispatcher is modelled from the specification because its concrete code lives
in the external `mcp` package, not in this repository.
-/

/-- Decoded JSON values, as produced by `response.json()` in poke_client.py. -/
inductive Json where
  | null
  | bool (b : Bool)
  | num (n : Int)
  | str (s : String)
  | arr (elems : List Json)
  | obj (fields : List (String × Json))
deriving Repr

/-- True exactly on `Json.obj` values (error-shaped handler payloads are
objects; greeting payloads are strings). -/
def Json.isObj : Json → Bool
  | .obj _ => true
  | _ => false

/-- Embeds `PokeClientSettings` from poke_client.py: a base url (defaulting to
the PokeAPI address) and an optional api key. -/
structure PokeClientSettings where
  base_url : String
  api_key : Option String
deriving DecidableEq, Repr

/-- The declared field defaults of `PokeClientSettings` in poke_client.py
(environment overrides are outside the embedded code). -/
def defaultPokeClientSettings : PokeClientSettings :=
  { base_url := "https://pokeapi.co/api/v2", api_key := none }

/-- One HTTP GET as issued by `session.get(url, timeout=10)`: the target url
and the timeout bound passed to the library (`none` would mean no bound). -/
structure HttpRequest where
  url : String
  timeout : Option Nat
deriving DecidableEq, Repr

/-- The outcome of one HTTP GET, at the interface boundary of the `requests`
library: the request timed out, failed at the network level, or produced a
response with a status code and a body (`none` models a body that
`response.json()` cannot decode). -/
inductive HttpOutcome where
  | timeout
  | connError (msg : String)
  | response (status : Nat) (body : Option Json)
deriving Repr

/-- The remote data provider, modelled as an oracle from the request the
client issues to the outcome the `requests` library reports. -/
abbrev Provider := HttpRequest → HttpOutcome

/-- The exceptions that `PokeClient.get_pokemon_data` can raise, mirroring the
`requests` exception taxonomy: `Timeout`, `ConnectionError`, `HTTPError` from
`raise_for_status`, and the `ValueError` from `response.json()` on an
undecodable body. -/
inductive RequestException where
  | timeout (url : String)
  | connectionError (url : String) (msg : String)
  | httpError (status : Nat) (url : String)
  | jsonDecodeError (msg : String)
deriving Repr

/-- The message carried by `str(e)` for each exception, mirroring the shape of
the `requests` messages (client error for 4xx, server error for 5xx). -/
def RequestException.message : RequestException → String
  | .timeout url => "Request timed out for url: " ++ url
  | .connectionError url msg => msg ++ " for url: " ++ url
  | .httpError status url =>
      (if status < 500 then toString status ++ " Client Error for url: "
       else toString status ++ " Server Error for url: ") ++ url
  | .jsonDecodeError msg => msg

/-- Network-level failures to reach the upstream service: what the
specification's error taxonomy calls `TransportError`.  A timeout and a
connection error are transport errors; an HTTP status error or a decode error
is not. -/
def RequestException.isTransportError : RequestException → Bool
  | .timeout _ => true
  | .connectionError _ _ => true
  | _ => false

/-- Embeds `requests.Response.raise_for_status`: an `HTTPError` is raised
exactly for 4xx client errors and 5xx server errors. -/
def statusIsError (status : Nat) : Bool :=
  400 ≤ status && status < 600

/-- The url built by `get_pokemon_data`, exactly as the f-string
`f"{self.settings.base_url}{endpoint}/{name}"` builds it: plain string
concatenation of the base url, the endpoint and the name, with no encoding. -/
def requestUrl (settings : PokeClientSettings) (endpoint name : String) : String :=
  settings.base_url ++ endpoint ++ "/" ++ name

/-- The single request `get_pokemon_data` passes to `session.get`: the built
url and the literal timeout bound 10. -/
def pokeRequest (settings : PokeClientSettings) (endpoint name : String) : HttpRequest :=
  { url := requestUrl settings endpoint name, timeout := some 10 }

/-- Embeds `PokeClient.get_pokemon_data` from poke_client.py together with the
trace of HTTP requests it issues.  The body is straight-line: build the url by
interpolation, issue one GET with `timeout=10`, raise `HTTPError` on an error
status via `raise_for_status`, decode the body as JSON, and return it
unchanged (the Pydantic validation in the source is commented out).  The
try/except around the call re-raises every exception unchanged, so it is the
identity on the error path. -/
def get_pokemon_data_run (settings : PokeClientSettings) (provider : Provider)
    (name endpoint : String) : List HttpRequest × Except RequestException Json :=
  ([pokeRequest settings endpoint name],
    match provider (pokeRequest settings endpoint name) with
    | .timeout => .error (.timeout (requestUrl settings endpoint name))
    | .connError msg => .error (.connectionError (requestUrl settings endpoint name) msg)
    | .response status body =>
        if statusIsError status then .error (.httpError status (requestUrl settings endpoint name))
        else
          match body with
          | some data => .ok data
          | none => .error (.jsonDecodeError "Expecting value"))

/-- Embeds `PokeClient.get_pokemon_data` at its default endpoint `"/pokemon"`,
which is how server.py calls it: just the result of the run. -/
def get_pokemon_data (settings : PokeClientSettings) (provider : Provider)
    (name : String) : Except RequestException Json :=
  (get_pokemon_data_run settings provider name "/pokemon").2

/-- The greeting built by the f-string
`f"Hello {name}, Welcome to Pokemon MCP Server"` in server.py. -/
def greetMessage (name : String) : String :=
  "Hello " ++ name ++ ", Welcome to Pokemon MCP Server"

/-- The body that the try/except of `greet_pokemon_user` guards, as a fallible
computation: formatting a `str` argument with an f-string and the default
format spec is total in Python, so the body always returns the greeting and
never raises. -/
def greetBody (name : String) : Except String String :=
  .ok (greetMessage name)

/-- Embeds the `greet_pokemon_user` handler registered in
`PokemonMCPServer.register_tools` (server.py): try the greeting body; if an
exception `e` were raised, log it and return the mapping with key `error` and
value `str(e)`.  The handler returns normally on every path. -/
def greet_pokemon_user (name : String) : Json :=
  match greetBody name with
  | .ok s => .str s
  | .error e => .obj [("error", .str e)]

/-- Embeds the `get_pokemon` handler registered in
`PokemonMCPServer.register_tools` (server.py): return
`poke_client.get_pokemon_data(name)`; on any exception `e`, log it and return
the mapping with key `error` and value `str(e)`.  The handler returns
normally on every path. -/
def get_pokemon (settings : PokeClientSettings) (provider : Provider)
    (name : String) : Json :=
  match get_pokemon_data settings provider name with
  | .ok data => data
  | .error e => .obj [("error", .str e.message)]

/-- A tool invocation as it reaches the dispatcher: the tool name and the
decoded argument object of the wire envelope. -/
structure ToolInvocation where
  tool : String
  arguments : List (String × Json)

/-- The kinds of dispatch failures named by the specification's error
taxonomy. -/
inductive FailureKind where
  | unknownTool
  | invalidArguments
  | handlerError
deriving DecidableEq, Repr

/-- The dispatch result of the specification's data model: a tagged union of
Success with a payload and Failure with a kind and a message. -/
inductive ToolResult where
  | success (payload : Json)
  | failure (kind : FailureKind) (message : String)
deriving Repr

/-- True exactly on `ToolResult.failure`. -/
def ToolResult.isFailure : ToolResult → Bool
  | .failure _ _ => true
  | _ => false

/-- Extracts the declared `name : string` argument of both registered tools
from the invocation's argument object. -/
def getStringArg (args : List (String × Json)) (key : String) : Option String :=
  match args.lookup key with
  | some (.str s) => some s
  | _ => none

/-- Modelled from the spec: the ToolDispatcher of section 4.3 (its concrete
code is the FastMCP library from the external `mcp` package, not part of this
repository's sources).  It resolves the tool name (an unknown name becomes a
Failure of kind UnknownToolError, never an exception), validates the
arguments against the declared `name : string` contract (a shape mismatch
becomes a Failure of kind InvalidArguments), invokes the handler
synchronously, and converts a fault raised by the handler into a Failure of
kind HandlerError carrying the original message.  A handler is a fallible
computation; `Except.error` models a raised fault. -/
def dispatch (registry : List (String × (String → Except String Json)))
    (inv : ToolInvocation) : ToolResult :=
  match registry.lookup inv.tool with
  | none => .failure .unknownTool ("Unknown tool: " ++ inv.tool)
  | some handler =>
      match getStringArg inv.arguments "name" with
      | none => .failure .invalidArguments "Invalid arguments: name must be a string"
      | some n =>
          match handler n with
          | .ok payload => .success payload
          | .error msg => .failure .handlerError msg

/-- Embeds `PokemonMCPServer.register_tools` (server.py): the two tools
registered on the server.  Each handler catches every fault inside its own
try/except and returns normally, so as registry entries neither ever raises:
both are `Except.ok` of the handler's return value. -/
def register_tools (settings : PokeClientSettings) (provider : Provider) :
    List (String × (String → Except String Json)) :=
  [("greet_pokemon_user", fun n => .ok (greet_pokemon_user n)),
   ("get_pokemon", fun n => .ok (get_pokemon settings provider n))]

/-- Unreserved characters of RFC 3986: left unencoded by every standard
percent-encoder. -/
def isUnreservedChar (c : Char) : Bool :=
  c.isAlphanum || c = '-' || c = '.' || c = '_' || c = '~'

/-- The hexadecimal digit for a value below 16, uppercase. -/
def hexDigit (n : Nat) : Char :=
  if n < 10 then Char.ofNat (48 + n) else Char.ofNat (55 + n)

/-- Percent-encodes one character of the ASCII range as a three-character
escape. -/
def percentEncodeChar (c : Char) : String :=
  String.mk ['%', hexDigit (c.toNat / 16 % 16), hexDigit (c.toNat % 16)]

/-- Modelled from the spec: standard URL path-segment encoding of a key (the
repository applies none, so this definition follows the specification's
words).  Unreserved characters pass through; every other character of the
ASCII range — in particular the path separator, which would otherwise change
the path structure — is percent-encoded. -/
def pathSegmentEncode (s : String) : String :=
  String.join (s.toList.map fun c =>
    if isUnreservedChar c then String.mk [c] else percentEncodeChar c)

/-- The pooled connection resource owned by a `requests.Session`: either still
open or released. -/
structure ConnectionResource where
  released : Bool
deriving DecidableEq, Repr

/-- Embeds the state of a `PokeClient`: the underlying `requests.Session`'s
connection resource. -/
structure PokeClientState where
  session : ConnectionResource
deriving DecidableEq, Repr

/-- Embeds `PokeClient.close` (poke_client.py): `self.session.close()`
releases the session's pooled connections; releasing an already-released pool
again is a no-op, so the resulting state is released either way. -/
def PokeClientState.close (c : PokeClientState) : PokeClientState :=
  { c with session := { released := true } }

/-- The process state that the Starlette lifespan of `bootstrap_asgi`
(server.py) manages: whether the StreamableHTTP session manager's task group
is running, and the server's `PokeClient`. -/
structure ServerProcess where
  sessionManagerRunning : Bool
  pokeClient : PokeClientState
deriving DecidableEq, Repr

/-- The process right after startup: `main` builds a `PokemonMCPServer`,
whose constructor creates a fresh `PokeClient` with an open session, and the
lifespan's `async with session_manager.run()` starts the session manager. -/
def startedServer : ServerProcess :=
  { sessionManagerRunning := true, pokeClient := { session := { released := false } } }

/-- Embeds the shutdown half of the `lifespan` context manager in server.py:
leaving the `async with session_manager.run()` block stops the session
manager, and the finally block only logs.  Nothing in the lifespan touches
the `PokeClient`, so its session is left exactly as it was. -/
def lifespanShutdown (p : ServerProcess) : ServerProcess :=
  { p with sessionManagerRunning := false }

/-- What `main` (server.py) does after constructing the server, as decided by
the transport argument: run uvicorn with the streamable-http ASGI app, run
the stdio loop, or echo an unsupported-transport message to stderr and
return. -/
inductive MainAction where
  | runHttp (host : String) (port : String)
  | runStdio
  | reportError (msg : String)
deriving DecidableEq, Repr

/-- True exactly on the actions that start a transport loop; only `runHttp`
additionally binds a listening socket. -/
def MainAction.startsTransportLoop : MainAction → Bool
  | .runHttp _ _ => true
  | .runStdio => true
  | .reportError _ => false

/-- True exactly on the action that binds a listening socket
(`uvicorn.run`). -/
def MainAction.bindsListener : MainAction → Bool
  | .runHttp _ _ => true
  | _ => false

/-- The unsupported-transport message `main` echoes to stderr.  The Python
f-string renders the list of enum values with a quote mark around each value;
the quote marks are elided here. -/
def unsupportedTransportMsg (transport : String) : String :=
  "Unsupported: " ++ transport ++ "! Choose from [streamable-http, stdio]"

namespace Server

/-- Embeds the transport selection of `main` (server.py): the string
`"streamable-http"` starts uvicorn on the ASGI app, `"stdio"` starts the
stdio loop, and anything else echoes an error to stderr, after which `main`
returns and the process exits. -/
def main (host port transport : String) : MainAction :=
  if transport = "streamable-http" then .runHttp host port
  else if transport = "stdio" then .runStdio
  else .reportError (unsupportedTransportMsg transport)

end Server

/-- Claim C3: for every server configuration, dispatching the greeting tool
with the valid argument object whose name is "Ash" yields Success with the
literal greeting string. -/
theorem C3_greeting_ash (settings : PokeClientSettings) (provider : Provider) :
    dispatch (register_tools settings provider)
      { tool := "greet_pokemon_user", arguments := [("name", Json.str "Ash")] } =
    .success (.str "Hello Ash, Welcome to Pokemon MCP Server") := rfl

/-- Claim C10: the exception branch of greet_pokemon_user is unreachable: the
guarded body is total string interpolation, so for every name the handler
returns the greeting string and never the error-shaped object. -/
theorem C10_greet_error_branch_unreachable (name : String) :
    greet_pokemon_user name =
      .str ("Hello " ++ name ++ ", Welcome to Pokemon MCP Server") ∧
    (greet_pokemon_user name).isObj = false :=
  ⟨rfl, rfl⟩

/-- Claim C9: for every name the get_pokemon handler returns normally: the
provider's decoded body unchanged when the fetch succeeds, and the
error-shaped object carrying the stringified exception when the fetch raises;
dispatch therefore always delivers this tool's outcome as a Success payload,
never as a Failure. -/
theorem C9_get_pokemon_never_raises (settings : PokeClientSettings)
    (provider : Provider) (name : String) :
    (∀ data, get_pokemon_data settings provider name = .ok data →
       get_pokemon settings provider name = data) ∧
    (∀ e, get_pokemon_data settings provider name = .error e →
       get_pokemon settings provider name = .obj [("error", .str e.message)]) ∧
    dispatch (register_tools settings provider)
      { tool := "get_pokemon", arguments := [("name", Json.str name)] } =
    .success (get_pokemon settings provider name) := by
  refine ⟨?_, ?_, rfl⟩
  · intro data h
    unfold get_pokemon
    rw [h]
  · intro e h
    unfold get_pokemon
    rw [h]

/-- Witness for C9: a provider that times out, at the name "mew". -/
theorem C9_witness :
    get_pokemon defaultPokeClientSettings (fun _ => .timeout) "mew" =
      .obj [("error",
        .str "Request timed out for url: https://pokeapi.co/api/v2/pokemon/mew")] ∧
    dispatch (register_tools defaultPokeClientSettings (fun _ => .timeout))
      { tool := "get_pokemon", arguments := [("name", Json.str "mew")] } =
    .success (get_pokemon defaultPokeClientSettings (fun _ => .timeout) "mew") :=
  ⟨(C9_get_pokemon_never_raises defaultPokeClientSettings (fun _ => .timeout) "mew").2.1
      (.timeout "https://pokeapi.co/api/v2/pokemon/mew") rfl,
   (C9_get_pokemon_never_raises defaultPokeClientSettings (fun _ => .timeout) "mew").2.2⟩

/-- Claim C2: if the provider answers the constructed request with a 2xx
status and a decodable JSON body, dispatching get_pokemon yields Success with
exactly that decoded body, unchanged and unvalidated. -/
theorem C2_success_payload_unchanged (settings : PokeClientSettings)
    (provider : Provider) (name : String) (status : Nat) (body : Json)
    (h2xx : 200 ≤ status) (hlt : status < 300)
    (h : provider (pokeRequest settings "/pokemon" name) = .response status (some body)) :
    dispatch (register_tools settings provider)
      { tool := "get_pokemon", arguments := [("name", Json.str name)] } =
    .success body := by
  have hs : statusIsError status = false := by
    simp only [statusIsError, Bool.and_eq_false_iff, decide_eq_false_iff_not]
    omega
  have hd : dispatch (register_tools settings provider)
      { tool := "get_pokemon", arguments := [("name", Json.str name)] } =
      .success (get_pokemon settings provider name) := rfl
  rw [hd]
  unfold get_pokemon get_pokemon_data get_pokemon_data_run
  simp only [h, hs, Bool.false_eq_true, if_false]

/-- Witness for C2: a provider answering 200 with the pikachu object. -/
theorem C2_witness :
    (200 ≤ 200) ∧ (200 < 300) ∧
    dispatch
      (register_tools defaultPokeClientSettings
        (fun _ => .response 200 (some (.obj [("name", .str "pikachu"), ("id", .num 25)]))))
      { tool := "get_pokemon", arguments := [("name", Json.str "pikachu")] } =
    .success (.obj [("name", .str "pikachu"), ("id", .num 25)]) :=
  ⟨by decide, by decide,
   C2_success_payload_unchanged defaultPokeClientSettings
     (fun _ => .response 200 (some (.obj [("name", .str "pikachu"), ("id", .num 25)])))
     "pikachu" 200 (.obj [("name", .str "pikachu"), ("id", .num 25)])
     (by decide) (by decide) rfl⟩

/-- A provider answering HTTP 404 with an empty body to every request. -/
def provider404 : Provider := fun _ => .response 404 none

/-- Claim C1 counterexample: with the provider answering 404 for
"missingmon", dispatch yields a Success whose payload is the error-shaped
object — not a Failure of kind HandlerError as claimed, because the handler
catches the HTTPError itself and returns the mapping as its normal value. -/
theorem C1_counterexample :
    dispatch (register_tools defaultPokeClientSettings provider404)
      { tool := "get_pokemon", arguments := [("name", Json.str "missingmon")] } =
      .success (.obj [("error",
        .str "404 Client Error for url: https://pokeapi.co/api/v2/pokemon/missingmon")]) ∧
    (dispatch (register_tools defaultPokeClientSettings provider404)
      { tool := "get_pokemon", arguments := [("name", Json.str "missingmon")] }).isFailure =
      false :=
  ⟨rfl, rfl⟩

/-- Claim C1 (amended): if the provider returns HTTP 404 for "missingmon",
dispatch yields a Success whose payload is the single-key error object
carrying the stringified HTTPError message; no unhandled fault reaches the
dispatcher or the transport, because the handler catches it. -/
theorem C1_amended_404_as_error_payload (settings : PokeClientSettings)
    (provider : Provider) (body : Option Json)
    (h : provider (pokeRequest settings "/pokemon" "missingmon") = .response 404 body) :
    dispatch (register_tools settings provider)
      { tool := "get_pokemon", arguments := [("name", Json.str "missingmon")] } =
    .success (.obj [("error",
      .str (RequestException.httpError 404
        (requestUrl settings "/pokemon" "missingmon")).message)]) := by
  have hd : dispatch (register_tools settings provider)
      { tool := "get_pokemon", arguments := [("name", Json.str "missingmon")] } =
      .success (get_pokemon settings provider "missingmon") := rfl
  rw [hd]
  unfold get_pokemon get_pokemon_data get_pokemon_data_run
  simp only [h]
  rfl

/-- Witness for the amended C1, at the concrete 404 provider. -/
theorem C1_amended_witness :
    provider404 (pokeRequest defaultPokeClientSettings "/pokemon" "missingmon") =
      .response 404 none ∧
    dispatch (register_tools defaultPokeClientSettings provider404)
      { tool := "get_pokemon", arguments := [("name", Json.str "missingmon")] } =
    .success (.obj [("error",
      .str (RequestException.httpError 404
        (requestUrl defaultPokeClientSettings "/pokemon" "missingmon")).message)]) :=
  ⟨rfl, C1_amended_404_as_error_payload defaultPokeClientSettings provider404 none rfl⟩

/-- Claim C4 counterexample: for the key "a/b" the single GET the client
issues targets the raw concatenation, keeping the slash of the key literal in
the path, not the path-segment-encoded form the claim requires. -/
theorem C4_counterexample :
    (get_pokemon_data_run defaultPokeClientSettings (fun _ => .timeout) "a/b" "/pokemon").1 ≠
    [{ url := defaultPokeClientSettings.base_url ++ "/pokemon" ++ "/" ++ pathSegmentEncode "a/b",
       timeout := some 10 }] := by
  decide

/-- Claim C4 (amended): every call of the fetch issues exactly one HTTP GET,
whose target address is the plain concatenation of the configured base
address, the fixed resource path, a slash and the key taken verbatim — the
client applies no encoding to the key at all. -/
theorem C4_amended_single_raw_get (settings : PokeClientSettings)
    (provider : Provider) (name : String) :
    (get_pokemon_data_run settings provider name "/pokemon").1 =
    [{ url := settings.base_url ++ "/pokemon" ++ "/" ++ name, timeout := some 10 }] := rfl

/-- Claim C5: the one request every fetch issues carries the bounded timeout
of 10 seconds, and a timeout outcome surfaces as a raised transport-level
error (a network-level failure, not a status or decode error). -/
theorem C5_bounded_timeout (settings : PokeClientSettings) (provider : Provider)
    (name : String)
    (h : provider (pokeRequest settings "/pokemon" name) = .timeout) :
    ((get_pokemon_data_run settings provider name "/pokemon").1.all
        fun r => r.timeout == some 10) = true ∧
    get_pokemon_data settings provider name =
      .error (.timeout (requestUrl settings "/pokemon" name)) ∧
    (RequestException.timeout (requestUrl settings "/pokemon" name)).isTransportError =
      true := by
  refine ⟨rfl, ?_, rfl⟩
  unfold get_pokemon_data get_pokemon_data_run
  simp only [h]

/-- Witness for C5: a provider that times out on every request, at the name
"ditto". -/
theorem C5_witness :
    ((fun _ => HttpOutcome.timeout) (pokeRequest defaultPokeClientSettings "/pokemon" "ditto") =
      HttpOutcome.timeout) ∧
    ((get_pokemon_data_run defaultPokeClientSettings (fun _ => .timeout) "ditto" "/pokemon").1.all
        fun r => r.timeout == some 10) = true ∧
    get_pokemon_data defaultPokeClientSettings (fun _ => .timeout) "ditto" =
      .error (.timeout (requestUrl defaultPokeClientSettings "/pokemon" "ditto")) ∧
    (RequestException.timeout
      (requestUrl defaultPokeClientSettings "/pokemon" "ditto")).isTransportError = true :=
  ⟨rfl, C5_bounded_timeout defaultPokeClientSettings (fun _ => .timeout) "ditto" rfl⟩

/-- Claim C6 (code bug): `PokeClient.close` is idempotent, but the lifespan in
server.py never invokes it — its shutdown path only stops the session manager
and logs — so after shutdown completes the connection resource is still
unreleased: released zero times, not exactly once as claimed. -/
theorem C6_shutdown_never_releases :
    (lifespanShutdown startedServer).sessionManagerRunning = false ∧
    (lifespanShutdown startedServer).pokeClient.session.released = false ∧
    ∀ c : PokeClientState, c.close.close = c.close :=
  ⟨rfl, rfl, fun _ => rfl⟩

/-- Claim C7: for every transport value outside the supported set, main
reports the invalid selection to the operator and returns without starting
either transport loop and without binding a listener. -/
theorem C7_invalid_transport_rejected (host port transport : String)
    (h1 : transport ≠ "streamable-http") (h2 : transport ≠ "stdio") :
    Server.main host port transport = .reportError (unsupportedTransportMsg transport) ∧
    (Server.main host port transport).startsTransportLoop = false ∧
    (Server.main host port transport).bindsListener = false := by
  unfold Server.main
  rw [if_neg h1, if_neg h2]
  exact ⟨rfl, rfl, rfl⟩

/-- Witness for C7: the unsupported transport value "tcp". -/
theorem C7_witness :
    ("tcp" ≠ "streamable-http") ∧ ("tcp" ≠ "stdio") ∧
    Server.main "0.0.0.0" "8080" "tcp" = .reportError (unsupportedTransportMsg "tcp") ∧
    (Server.main "0.0.0.0" "8080" "tcp").startsTransportLoop = false ∧
    (Server.main "0.0.0.0" "8080" "tcp").bindsListener = false :=
  ⟨by decide, by decide,
   C7_invalid_transport_rejected "0.0.0.0" "8080" "tcp" (by decide) (by decide)⟩
